import Mathlib

/-
Verification of the forte entry/relation core (src/forte/data/ontology/top.py)
against its natural-language specification.

The Python classes are shallowly embedded: every entry instance becomes one
value of the record type EntryState carrying the attributes that top.py
assigns (unset attributes are none, matching Python attributes that were never
assigned and raise AttributeError on access); the class of the instance is a
tag of the inductive PyClass, with the isinstance relation computed from the
superclass chain of top.py; fallible Python code (raise) becomes Except.
The owning EntryContainer (forte/data/container.py is not part of src; only
its interface is used by top.py) is modelled from the spec where noted.
-/

namespace Forte

/-- The class hierarchy of top.py, plus the two example user classes Token and
Sentence that the spec uses (annotation subclasses declared by a schema). -/
inductive PyClass
  | entry
  | annot
  | token
  | sentence
  | baseLink
  | link
  | baseGroup
  | group
  | subEntry
  | multiPackLink
  | multiPackGroup
  | query
deriving DecidableEq, Repr

/-- Direct superclass of each class, as declared in top.py (Token and Sentence
are Annotation subclasses per the spec's example). -/
def superclass : PyClass → Option PyClass
  | PyClass.entry => none
  | PyClass.annot => some PyClass.entry
  | PyClass.token => some PyClass.annot
  | PyClass.sentence => some PyClass.annot
  | PyClass.baseLink => some PyClass.entry
  | PyClass.link => some PyClass.baseLink
  | PyClass.baseGroup => some PyClass.entry
  | PyClass.group => some PyClass.baseGroup
  | PyClass.subEntry => some PyClass.entry
  | PyClass.multiPackLink => some PyClass.baseLink
  | PyClass.multiPackGroup => some PyClass.baseGroup
  | PyClass.query => some PyClass.entry

/-- Walk the superclass chain (the hierarchy has depth at most 3, fuel 8 is
more than enough). -/
def subclassFuel : Nat → PyClass → PyClass → Bool
  | 0, _, _ => false
  | Nat.succ n, c, d =>
      decide (c = d) ||
        (match superclass c with
         | some p => subclassFuel n p d
         | none => false)

/-- Python isinstance on the modelled hierarchy: the runtime class c is d or a
(transitive) subclass of d. -/
def isinstance (c d : PyClass) : Bool := subclassFuel 8 c d

/-- Span (top.py lines 30-48): a pair of integers. The source performs no
validation in the constructor. -/
structure Span where
  begin : Int
  end_ : Int
deriving DecidableEq, Repr

/-- Span.__init__ (lines 38-40): assigns begin and end unconditionally; there
is no code path that raises, so construction always succeeds. -/
def Span.init (b e : Int) : Except String Span := Except.ok { begin := b, end_ := e }

/-- Span.__lt__ (lines 42-45): begin is the primary key, end the tie-break. -/
def Span.lt (a b : Span) : Bool :=
  if a.begin = b.begin then decide (a.end_ < b.end_) else decide (a.begin < b.begin)

/-- Span.__eq__ (lines 47-48): componentwise pair equality. -/
def Span.eq (a b : Span) : Bool :=
  decide ((a.begin, a.end_) = (b.begin, b.end_))

/-- The argument of Query.__init__: a str or an np.ndarray (the array is
modelled as its list of entries). -/
inductive QueryVal
  | qstr (s : String)
  | qarr (a : List Int)
deriving DecidableEq, Repr

/-- The attribute state of one Python entry instance. A field holding none
models an attribute that was never assigned (accessing it raises
AttributeError); fields only ever assigned by a given class are simply left
none on instances of other classes. -/
structure EntryState where
  cls : PyClass
  pack : Option Nat := none
  tid : Option String := none
  component : Option String := none
  modifiedFields : List String := []
  span : Option Span := none
  parent : Option String := none
  child : Option String := none
  mpParent : Option (Int × String) := none
  mpChild : Option (Int × String) := none
  members : List String := []
  packIndex : Option Int := none
  entryId : Option String := none
  queryVal : Option QueryVal := none
deriving DecidableEq, Repr

/-- The Python exceptions raised by the modelled code. typeMismatch carries the
class the message names as expected and the actual runtime class. -/
inductive PyError
  | typeMismatch (expected actual : PyClass)
  | missingArgument (name : String)
  | attributeError (name : String)
  | valueError (msg : String)
  | unknownId (tid : Option String)
  | incompleteEntry
  | recursionLimit
deriving DecidableEq, Repr

/-- Reading self._tid (assigned only by set_tid; annotated but not assigned in
Entry.__init__, so reading it unset raises AttributeError). -/
def EntryState.tidGet (e : EntryState) : Except PyError String :=
  match e.tid with
  | some t => Except.ok t
  | none => Except.error (PyError.attributeError ("_tid"))

/-- Reading self._span of an Annotation. -/
def EntryState.spanGet (e : EntryState) : Except PyError Span :=
  match e.span with
  | some s => Except.ok s
  | none => Except.error (PyError.attributeError ("_span"))

/-- Reading self._pack_index of a SubEntry. -/
def EntryState.packIndexGet (e : EntryState) : Except PyError Int :=
  match e.packIndex with
  | some i => Except.ok i
  | none => Except.error (PyError.attributeError ("_pack_index"))

/-- Reading self._entry_id of a SubEntry. -/
def EntryState.entryIdGet (e : EntryState) : Except PyError String :=
  match e.entryId with
  | some i => Except.ok i
  | none => Except.error (PyError.attributeError ("_entry_id"))

/-- Reading other.entry, as SubEntry.__eq__ (line 506) does: no class in
top.py defines an attribute or property named entry, so this access raises
AttributeError on every instance. -/
def EntryState.entryGet (_e : EntryState) : Except PyError EntryState :=
  Except.error (PyError.attributeError ("entry"))

/-- Reading self._members of a BaseGroup (assigned in BaseGroup.__init__, so
it exists exactly on BaseGroup instances). -/
def EntryState.membersGet (e : EntryState) : Except PyError (List String) :=
  if isinstance e.cls PyClass.baseGroup then Except.ok e.members
  else Except.error (PyError.attributeError ("_members"))

/-- The store that owns entries. forte/data/container.py is not under src;
top.py only calls pack.validate and pack.get_entry on it. Modelled from the
spec: the store keeps the authoritative id-to-Entry index, and (for a
multi-document container) a list of sub-store ids. -/
structure EntryContainer where
  cid : Nat
  index : List (String × EntryState) := []
  subStores : List Nat := []
deriving DecidableEq, Repr

/-- The collection of live containers; entries refer to their owner by cid. -/
abbrev World := List EntryContainer

def findPack (w : World) (i : Nat) : Option EntryContainer :=
  w.find? (fun c => c.cid == i)

/-- Dereference the self.__pack attribute of an entry: none models Python None
(or an owner that is not live in the world). -/
def packOf (w : World) (e : EntryState) : Option EntryContainer :=
  match e.pack with
  | none => none
  | some i => findPack w i

/-- Modelled from the spec: EntryContainer.validate (container.py is not under
src) is called synchronously at construction time and must reject an Entry
whose declared owner does not match the store performing validation. -/
def EntryContainer.validate (c : EntryContainer) (e : EntryState) : Except PyError Unit :=
  if e.pack = some c.cid then Except.ok ()
  else Except.error (PyError.valueError ("entry owner does not match this store"))

/-- Modelled from the spec: EntryContainer.get_entry (container.py is not
under src) resolves an id in the store's id index and fails with UnknownIdError
when the id is absent; a Python None argument (an unset link endpoint) is
likewise absent from the index. -/
def EntryContainer.get_entry (c : EntryContainer) (tid : Option String) : Except PyError EntryState :=
  match tid with
  | none => Except.error (PyError.unknownId none)
  | some t =>
      match c.index.lookup t with
      | some e => Except.ok e
      | none => Except.error (PyError.unknownId (some t))

/-- Entry.__init__ (lines 71-85). The packArg layer distinguishes a call that
omits the required positional argument (outer none: Python raises TypeError,
missing 1 required positional argument, before the body runs - this is how
Query.__init__ calls it) from a call passing Python None (inner none: the body
runs and pack.validate fails with AttributeError on NoneType) and from a call
passing a live container (the store validates the new entry). -/
def Entry.init (cls : PyClass) (packArg : Option (Option EntryContainer)) : Except PyError EntryState :=
  match packArg with
  | none => Except.error (PyError.missingArgument ("pack"))
  | some none => Except.error (PyError.attributeError ("validate"))
  | some (some c) =>
      let e : EntryState := { cls := cls, pack := some c.cid }
      match EntryContainer.validate c e with
      | Except.ok _ => Except.ok e
      | Except.error err => Except.error err

/-- SubEntry.__init__ (lines 486-489): Entry construction, then the two
address attributes. -/
def SubEntry.init (packArg : Option (Option EntryContainer)) (packIndex : Int)
    (entryId : String) : Except PyError EntryState :=
  match Entry.init PyClass.subEntry packArg with
  | Except.error err => Except.error err
  | Except.ok e => Except.ok { e with packIndex := some packIndex, entryId := some entryId }

/-- Query.__init__ (lines 634-636): calls super().__init__() with no pack
argument although Entry.__init__ requires one, so the call raises before
self.query is ever assigned. -/
def Query.init (q : QueryVal) : Except PyError EntryState :=
  match Entry.init PyClass.query none with
  | Except.error err => Except.error err
  | Except.ok e => Except.ok { e with queryVal := some q }

/-- Modelled from the spec: forte.utils.get_full_module_name is not under src;
it returns the full dotted module name of the given object's class, modelled
here as a fixed map from the class tag. -/
def get_full_module_name : PyClass → String
  | PyClass.entry => "forte.data.ontology.top.Entry"
  | PyClass.annot => "forte.data.ontology.top.Annotation"
  | PyClass.token => "ft.onto.base_ontology.Token"
  | PyClass.sentence => "ft.onto.base_ontology.Sentence"
  | PyClass.baseLink => "forte.data.ontology.top.BaseLink"
  | PyClass.link => "forte.data.ontology.top.Link"
  | PyClass.baseGroup => "forte.data.ontology.top.BaseGroup"
  | PyClass.group => "forte.data.ontology.top.Group"
  | PyClass.subEntry => "forte.data.ontology.top.SubEntry"
  | PyClass.multiPackLink => "forte.data.ontology.top.MultiPackLink"
  | PyClass.multiPackGroup => "forte.data.ontology.top.MultiPackGroup"
  | PyClass.query => "forte.data.ontology.top.Query"

/-- Entry.set_component (lines 95-104). -/
def Entry.set_component (e : EntryState) (component : String) : EntryState :=
  { e with component := some component }

/-- Entry.set_tid (lines 106-115): stores the formatted module-qualified id. -/
def Entry.set_tid (e : EntryState) (tid : String) : EntryState :=
  { e with tid := some (get_full_module_name e.cls ++ "." ++ tid) }

/-- Annotation.set_span (lines 164-165): replaces the Span wholesale. -/
def Annot.set_span (e : EntryState) (b en : Int) : EntryState :=
  { e with span := some { begin := b, end_ := en } }

/-- One keyword argument of Entry.set_fields, at the type of the attribute
slot it addresses (the slot name is given by attrName). -/
inductive AttrAssign
  | packA (p : Option Nat)
  | tidA (t : String)
  | componentA (s : String)
  | spanA (s : Span)
  | parentA (p : Option String)
  | childA (p : Option String)
  | membersA (ms : List String)
deriving DecidableEq, Repr

/-- The Python attribute name each assignment addresses. self.__pack and
self.__component are name-mangled to _Entry__pack and _Entry__component. -/
def attrName : AttrAssign → String
  | AttrAssign.packA _ => "_Entry__pack"
  | AttrAssign.tidA _ => "_tid"
  | AttrAssign.componentA _ => "_Entry__component"
  | AttrAssign.spanA _ => "_span"
  | AttrAssign.parentA _ => "_parent"
  | AttrAssign.childA _ => "_child"
  | AttrAssign.membersA _ => "_members"

/-- Python hasattr on the modelled attribute slots: _Entry__pack is assigned
in Entry.__init__ and always exists; _tid, _Entry__component and _span exist
once assigned; _parent and _child are assigned (to None) in Link.__init__ and
MultiPackLink inherits BaseLink whose subclasses assign them, so they exist on
Link and MultiPackLink instances; _members is assigned in BaseGroup.__init__. -/
def EntryState.hasattr (e : EntryState) (n : String) : Bool :=
  if n == "_Entry__pack" then true
  else if n == "_tid" then e.tid.isSome
  else if n == "_Entry__component" then e.component.isSome
  else if n == "_span" then e.span.isSome
  else if n == "_parent" then isinstance e.cls PyClass.link || isinstance e.cls PyClass.multiPackLink
  else if n == "_child" then isinstance e.cls PyClass.link || isinstance e.cls PyClass.multiPackLink
  else if n == "_members" then isinstance e.cls PyClass.baseGroup
  else false

/-- Python setattr on the modelled slots. -/
def EntryState.setattr_ (e : EntryState) : AttrAssign → EntryState
  | AttrAssign.packA p => { e with pack := p }
  | AttrAssign.tidA t => { e with tid := some t }
  | AttrAssign.componentA s => { e with component := some s }
  | AttrAssign.spanA s => { e with span := some s }
  | AttrAssign.parentA p => { e with parent := p }
  | AttrAssign.childA p => { e with child := p }
  | AttrAssign.membersA ms => { e with members := ms }

/-- Entry.set_fields (lines 121-130) for one keyword argument: raises
AttributeError when the instance has no attribute of that name, otherwise
setattr and record the name in the modified-field set. -/
def Entry.set_fields (e : EntryState) (a : AttrAssign) : Except PyError EntryState :=
  if e.hasattr (attrName a) then
    Except.ok { e.setattr_ a with modifiedFields := e.modifiedFields ++ [attrName a] }
  else Except.error (PyError.attributeError (attrName a))

/-- The ParentType and ChildType class attributes a Link subclass declares. -/
structure LinkDecl where
  parentType : PyClass
  childType : PyClass
deriving DecidableEq, Repr

/-- Link.set_parent (lines 297-312): isinstance gate against ParentType (the
TypeError message names ParentType and the actual class), then store
parent.tid. -/
def Link.set_parent (decl : LinkDecl) (l : EntryState) (parent : EntryState) : Except PyError EntryState :=
  if isinstance parent.cls decl.parentType then
    match parent.tidGet with
    | Except.ok t => Except.ok { l with parent := some t }
    | Except.error err => Except.error err
  else Except.error (PyError.typeMismatch decl.parentType parent.cls)

/-- Link.set_child (lines 314-332): isinstance gate against ChildType, but the
TypeError message of the source (lines 329-331) names self.ParentType, not
self.ChildType (and reads "The parent of ..."); on success store child.tid. -/
def Link.set_child (decl : LinkDecl) (l : EntryState) (child : EntryState) : Except PyError EntryState :=
  if isinstance child.cls decl.childType then
    match child.tidGet with
    | Except.ok t => Except.ok { l with child := some t }
    | Except.error err => Except.error err
  else Except.error (PyError.typeMismatch decl.parentType child.cls)

/-- Link.get_parent (lines 350-360): ValueError when the link has no pack,
otherwise resolve the stored id in the owning store. -/
def Link.get_parent (w : World) (l : EntryState) : Except PyError EntryState :=
  match packOf w l with
  | none => Except.error (PyError.valueError ("Cannot get parent because link is not attached to any data pack."))
  | some c => EntryContainer.get_entry c l.parent

/-- Link.get_child (lines 362-372). -/
def Link.get_child (w : World) (l : EntryState) : Except PyError EntryState :=
  match packOf w l with
  | none => Except.error (PyError.valueError ("Cannot get child because link is not attached to any data pack."))
  | some c => EntryContainer.get_entry c l.child

/-- SubEntry.index_key (lines 508-510): the pair (pack_index, entry_id). -/
def SubEntry.index_key (e : EntryState) : Except PyError (Int × String) :=
  match e.packIndexGet with
  | Except.error err => Except.error err
  | Except.ok i =>
      match e.entryIdGet with
      | Except.error err => Except.error err
      | Except.ok id_ => Except.ok (i, id_)

/-- MultiPackLink.set_parent (lines 560-576): isinstance gate against
ParentType, then store parent.index_key. -/
def MultiPackLink.set_parent (decl : LinkDecl) (l : EntryState) (parent : EntryState) : Except PyError EntryState :=
  if isinstance parent.cls decl.parentType then
    match SubEntry.index_key parent with
    | Except.ok k => Except.ok { l with mpParent := some k }
    | Except.error err => Except.error err
  else Except.error (PyError.typeMismatch decl.parentType parent.cls)

/-- MultiPackLink.set_child (lines 578-583): isinstance gate against ChildType
(this message does name self.ChildType), then store child.index_key. -/
def MultiPackLink.set_child (decl : LinkDecl) (l : EntryState) (child : EntryState) : Except PyError EntryState :=
  if isinstance child.cls decl.childType then
    match SubEntry.index_key child with
    | Except.ok k => Except.ok { l with mpChild := some k }
    | Except.error err => Except.error err
  else Except.error (PyError.typeMismatch decl.childType child.cls)

/-- MultiPackLink.get_parent (lines 585-597): IncompleteEntryError when the
parent is unset; otherwise construct a SubEntry directly from the stored pair,
passing self.pack - no sub-store selection, bounds check or id lookup is
performed. -/
def MultiPackLink.get_parent (w : World) (l : EntryState) : Except PyError EntryState :=
  match l.mpParent with
  | none => Except.error PyError.incompleteEntry
  | some (packIdx, parentTid) => SubEntry.init (some (packOf w l)) packIdx parentTid

/-- MultiPackLink.get_child (lines 599-612). -/
def MultiPackLink.get_child (w : World) (l : EntryState) : Except PyError EntryState :=
  match l.mpChild with
  | none => Except.error PyError.incompleteEntry
  | some (packIdx, childTid) => SubEntry.init (some (packOf w l)) packIdx childTid

/-- Python set.add on the modelled id set (kept as its iteration list). -/
def setAdd (xs : List String) (x : String) : List String :=
  if x ∈ xs then xs else xs ++ [x]

/-- BaseGroup.add_members (lines 409-425): each member is isinstance-gated
against member_type (TypeError names member_type and the actual class), then
its tid is added to the member id set. -/
def BaseGroup.add_members (memberType : PyClass) : EntryState → List EntryState → Except PyError EntryState
  | g, [] => Except.ok g
  | g, m :: ms =>
      if isinstance m.cls memberType then
        match m.tidGet with
        | Except.ok t => BaseGroup.add_members memberType { g with members := setAdd g.members t } ms
        | Except.error err => Except.error err
      else Except.error (PyError.typeMismatch memberType m.cls)

/-- Entry.__eq__ (lines 132-136): False against None, else compare
(type(self), self._tid) with (type(other), other.tid); both tuple builds read
the _tid attribute and raise if it is unset. -/
def Entry.eq (a : EntryState) (b? : Option EntryState) : Except PyError Bool :=
  match b? with
  | none => Except.ok false
  | some b =>
      match a.tidGet with
      | Except.error err => Except.error err
      | Except.ok ta =>
          match b.tidGet with
          | Except.error err => Except.error err
          | Except.ok tb => Except.ok (decide (a.cls = b.cls) && decide (ta = tb))

/-- The tuple Entry.__hash__ (lines 138-139) hashes: (type(self), self._tid). -/
def Entry.hash_input (a : EntryState) : Except PyError (PyClass × String) :=
  match a.tidGet with
  | Except.error err => Except.error err
  | Except.ok t => Except.ok (a.cls, t)

/-- Annotation.__eq__ (lines 172-176): False against None, else compare
(type, span.begin, span.end) of both sides. -/
def Annot.eq (a : EntryState) (b? : Option EntryState) : Except PyError Bool :=
  match b? with
  | none => Except.ok false
  | some b =>
      match a.spanGet with
      | Except.error err => Except.error err
      | Except.ok sa =>
          match b.spanGet with
          | Except.error err => Except.error err
          | Except.ok sb =>
              Except.ok (decide (a.cls = b.cls) && decide (sa.begin = sb.begin)
                && decide (sa.end_ = sb.end_))

/-- The tuple Annotation.__hash__ (lines 167-170) hashes:
(type(self), self.pack, self.span.begin, self.span.end). The pack component
stands for the hash of the owning store object, which is identity-based, so it
is modelled by the store reference itself. -/
def Annot.hash_input (a : EntryState) : Except PyError (PyClass × Option Nat × Int × Int) :=
  match a.spanGet with
  | Except.error err => Except.error err
  | Except.ok s => Except.ok (a.cls, a.pack, s.begin, s.end_)

/-- SubEntry.__eq__ (lines 502-506): False against None; otherwise Python
builds (type(self), self.pack_index, self.entry_id) and then
(type(other), other.pack_index, other.entry) - and the read of other.entry
(the source says entry, not entry_id) raises AttributeError, so the
comparison of the tuples (modelled in the unreachable tail) is never made. -/
def SubEntry.eq (slf : EntryState) (b? : Option EntryState) : Except PyError Bool :=
  match b? with
  | none => Except.ok false
  | some b =>
      match slf.packIndexGet with
      | Except.error err => Except.error err
      | Except.ok i =>
          match slf.entryIdGet with
          | Except.error err => Except.error err
          | Except.ok _id =>
              match b.packIndexGet with
              | Except.error err => Except.error err
              | Except.ok j =>
                  match b.entryGet with
                  | Except.error err => Except.error err
                  | Except.ok _ => Except.ok (decide (slf.cls = b.cls) && decide (i = j))

/-- The tuple SubEntry.__hash__ (lines 499-500) hashes:
(type(self), self._pack_index, self._entry_id). -/
def SubEntry.hash_input (e : EntryState) : Except PyError (PyClass × Int × String) :=
  match e.packIndexGet with
  | Except.error err => Except.error err
  | Except.ok i =>
      match e.entryIdGet with
      | Except.error err => Except.error err
      | Except.ok id_ => Except.ok (e.cls, i, id_)

/-- Python set equality on the modelled member id sets. -/
def listSetEq (xs ys : List String) : Bool :=
  xs.all (fun x => ys.contains x) && ys.all (fun y => xs.contains y)

/-- BaseGroup.__eq__ (lines 439-442): False against None, else compare
(type, members-set) of both sides; reading members of a non-group raises. -/
def BaseGroup.eq (a : EntryState) (b? : Option EntryState) : Except PyError Bool :=
  match b? with
  | none => Except.ok false
  | some b =>
      match a.membersGet with
      | Except.error err => Except.error err
      | Except.ok ma =>
          match b.membersGet with
          | Except.error err => Except.error err
          | Except.ok mb => Except.ok (decide (a.cls = b.cls) && listSetEq ma mb)

/-- self.get_parent() as dispatched on the runtime class of the link (Link and
MultiPackLink override the abstract BaseLink.get_parent differently). -/
def dispatchGetParent (w : World) (l : EntryState) : Except PyError EntryState :=
  if isinstance l.cls PyClass.multiPackLink then MultiPackLink.get_parent w l
  else Link.get_parent w l

/-- self.get_child() as dispatched on the runtime class of the link. -/
def dispatchGetChild (w : World) (l : EntryState) : Except PyError EntryState :=
  if isinstance l.cls PyClass.multiPackLink then MultiPackLink.get_child w l
  else Link.get_child w l

/-- BaseLink.__eq__ (lines 263-267), parameterized by the equality used on the
resolved endpoint entries: False against None; otherwise both endpoint pairs
are resolved while the two tuples are built, then the tuples are compared
elementwise with short-circuit (types first, then parents, then children). -/
def BaseLink.eqWith (entryEq : EntryState → Option EntryState → Except PyError Bool)
    (w : World) (a : EntryState) (b? : Option EntryState) : Except PyError Bool :=
  match b? with
  | none => Except.ok false
  | some b =>
      match dispatchGetParent w a with
      | Except.error err => Except.error err
      | Except.ok ap =>
          match dispatchGetChild w a with
          | Except.error err => Except.error err
          | Except.ok ac =>
              match dispatchGetParent w b with
              | Except.error err => Except.error err
              | Except.ok bp =>
                  match dispatchGetChild w b with
                  | Except.error err => Except.error err
                  | Except.ok bc =>
                      if decide (a.cls = b.cls) then
                        match entryEq ap (some bp) with
                        | Except.error err => Except.error err
                        | Except.ok pe =>
                            if pe then entryEq ac (some bc) else Except.ok false
                      else Except.ok false

/-- Python == on entries, dispatched on the runtime class of the left operand
(Annotation, SubEntry, BaseLink, BaseGroup each override Entry.__eq__); the
fuel bounds the endpoint-resolution recursion of link equality, standing for
the Python recursion limit. -/
def pyEq (w : World) (fuel : Nat) (a : EntryState) (b? : Option EntryState) : Except PyError Bool :=
  match fuel with
  | 0 => Except.error PyError.recursionLimit
  | Nat.succ f =>
      if isinstance a.cls PyClass.annot then Annot.eq a b?
      else if isinstance a.cls PyClass.subEntry then SubEntry.eq a b?
      else if isinstance a.cls PyClass.baseLink then
        BaseLink.eqWith (fun x y => pyEq w f x y) w a b?
      else if isinstance a.cls PyClass.baseGroup then BaseGroup.eq a b?
      else Entry.eq a b?

/-- BaseLink.__eq__ at a given recursion budget for endpoint equality. -/
def BaseLink.eq (w : World) (fuel : Nat) (a : EntryState) (b? : Option EntryState) : Except PyError Bool :=
  BaseLink.eqWith (fun x y => pyEq w fuel x y) w a b?

/-- The shape of the tuple a Python hash call receives, one constructor per
__hash__ override in top.py; the pack component of an Annotation key is the
identity of the owning store (see Annot.hash_input). -/
inductive HashKey
  | annotK (cls : PyClass) (pack : Option Nat) (b e : Int)
  | entryK (cls : PyClass) (tid : String)
  | linkK (cls : PyClass) (p c : HashKey)
  | groupK (cls : PyClass) (ms : List String)
  | subEntryK (cls : PyClass) (i : Int) (id_ : String)
deriving DecidableEq, Repr

/-- Python hash on entries, dispatched on the runtime class, as pyEq. The
BaseLink.__hash__ tuple (lines 269-270) holds the resolved endpoint entries,
so their own hash keys are computed recursively. -/
def pyHashKey (w : World) (fuel : Nat) (a : EntryState) : Except PyError HashKey :=
  match fuel with
  | 0 => Except.error PyError.recursionLimit
  | Nat.succ f =>
      if isinstance a.cls PyClass.annot then
        match Annot.hash_input a with
        | Except.error err => Except.error err
        | Except.ok t => Except.ok (HashKey.annotK t.1 t.2.1 t.2.2.1 t.2.2.2)
      else if isinstance a.cls PyClass.subEntry then
        match SubEntry.hash_input a with
        | Except.error err => Except.error err
        | Except.ok t => Except.ok (HashKey.subEntryK t.1 t.2.1 t.2.2)
      else if isinstance a.cls PyClass.baseLink then
        match dispatchGetParent w a with
        | Except.error err => Except.error err
        | Except.ok p =>
            match dispatchGetChild w a with
            | Except.error err => Except.error err
            | Except.ok c =>
                match pyHashKey w f p with
                | Except.error err => Except.error err
                | Except.ok kp =>
                    match pyHashKey w f c with
                    | Except.error err => Except.error err
                    | Except.ok kc => Except.ok (HashKey.linkK a.cls kp kc)
      else if isinstance a.cls PyClass.baseGroup then
        match a.membersGet with
        | Except.error err => Except.error err
        | Except.ok ms => Except.ok (HashKey.groupK a.cls ms)
      else
        match a.tidGet with
        | Except.error err => Except.error err
        | Except.ok t => Except.ok (HashKey.entryK a.cls t)

/-- The tuple BaseLink.__hash__ (lines 269-270) hashes:
(type(self), self.get_parent(), self.get_child()), with the endpoints' own
hash keys computed at the given recursion budget. -/
def BaseLink.hash_input (w : World) (fuel : Nat) (a : EntryState) : Except PyError HashKey :=
  match dispatchGetParent w a with
  | Except.error err => Except.error err
  | Except.ok p =>
      match dispatchGetChild w a with
      | Except.error err => Except.error err
      | Except.ok c =>
          match pyHashKey w fuel p with
          | Except.error err => Except.error err
          | Except.ok kp =>
              match pyHashKey w fuel c with
              | Except.error err => Except.error err
              | Except.ok kc => Except.ok (HashKey.linkK a.cls kp kc)

/-- One mutating operation of the entry/relation core applied to an entry
(the relation setters carry the declared endpoint or member capability of the
concrete class and the live argument entry). -/
inductive CoreOp
  | setComponent (s : String)
  | setTid (t : String)
  | setSpan (b en : Int)
  | linkSetParent (decl : LinkDecl) (p : EntryState)
  | linkSetChild (decl : LinkDecl) (c : EntryState)
  | mpSetParent (decl : LinkDecl) (p : EntryState)
  | mpSetChild (decl : LinkDecl) (c : EntryState)
  | groupAddMembers (memberType : PyClass) (ms : List EntryState)
  | setFields (a : AttrAssign)
deriving Repr

/-- Apply one core operation to the receiving entry. -/
def step (op : CoreOp) (e : EntryState) : Except PyError EntryState :=
  match op with
  | CoreOp.setComponent s => Except.ok (Entry.set_component e s)
  | CoreOp.setTid t => Except.ok (Entry.set_tid e t)
  | CoreOp.setSpan b en => Except.ok (Annot.set_span e b en)
  | CoreOp.linkSetParent decl p => Link.set_parent decl e p
  | CoreOp.linkSetChild decl c => Link.set_child decl e c
  | CoreOp.mpSetParent decl p => MultiPackLink.set_parent decl e p
  | CoreOp.mpSetChild decl c => MultiPackLink.set_child decl e c
  | CoreOp.groupAddMembers mt ms => BaseGroup.add_members mt e ms
  | CoreOp.setFields a => Entry.set_fields e a

/-- True exactly for the set_fields call that addresses the mangled owner
attribute _Entry__pack. -/
def touchesPackSlot : CoreOp → Bool
  | CoreOp.setFields (AttrAssign.packA _) => true
  | _ => false

/- Concrete instances used by the examples below: a schema with a dependency
link declared between Sentence (parent) and Token (child), two stores (cid 0
and cid 1) holding structurally identical Token annotations, a link in each
store, and a coreference group. -/

def sentenceEntry : EntryState :=
  { cls := PyClass.sentence, pack := some 0, tid := some ("s1"),
    span := some { begin := 0, end_ := 9 } }

def depLinkDecl : LinkDecl :=
  { parentType := PyClass.sentence, childType := PyClass.token }

def bareLink : EntryState :=
  { cls := PyClass.link, pack := some 0, tid := some ("l1") }

def tokenA0 : EntryState :=
  { cls := PyClass.token, pack := some 0, tid := some ("t1"),
    span := some { begin := 0, end_ := 5 } }

def tokenA1 : EntryState :=
  { cls := PyClass.token, pack := some 1, tid := some ("t2"),
    span := some { begin := 0, end_ := 5 } }

def subEntry42 : EntryState :=
  { cls := PyClass.subEntry, pack := some 0, packIndex := some 1, entryId := some ("42") }

def multiPack : EntryContainer := { cid := 0, index := [], subStores := [1, 2] }

def mpLink5 : EntryState :=
  { cls := PyClass.multiPackLink, pack := some 0, tid := some ("ml1"),
    mpParent := some (5, "42") }

def tokenP0 : EntryState :=
  { cls := PyClass.token, pack := some 0, tid := some ("p"),
    span := some { begin := 0, end_ := 5 } }

def tokenC0 : EntryState :=
  { cls := PyClass.token, pack := some 0, tid := some ("c"),
    span := some { begin := 10, end_ := 12 } }

def tokenP1 : EntryState :=
  { cls := PyClass.token, pack := some 1, tid := some ("p"),
    span := some { begin := 0, end_ := 5 } }

def tokenC1 : EntryState :=
  { cls := PyClass.token, pack := some 1, tid := some ("c"),
    span := some { begin := 10, end_ := 12 } }

def annotPack0 : EntryContainer :=
  { cid := 0, index := [("p", tokenP0), ("c", tokenC0)] }

def annotPack1 : EntryContainer :=
  { cid := 1, index := [("p", tokenP1), ("c", tokenC1)] }

def c8world : World := [annotPack0, annotPack1]

def linkPack0 : EntryState :=
  { cls := PyClass.link, pack := some 0, tid := some ("l0"),
    parent := some ("p"), child := some ("c") }

def linkPack1 : EntryState :=
  { cls := PyClass.link, pack := some 1, tid := some ("l9"),
    parent := some ("p"), child := some ("c") }

theorem Span.lt_iff (a b : Span) :
    Span.lt a b = true ↔ (a.begin < b.begin ∨ (a.begin = b.begin ∧ a.end_ < b.end_)) := by
  unfold Span.lt
  by_cases h : a.begin = b.begin <;> simp [h]

/-- Claim C5: Span comparison is a strict total order with begin as the
primary key and end as the tie-break: for all Spans a, b, c it is
irreflexive, antisymmetric, transitive (and total, comparing equal pairs
equal), and in particular Span(0,5) < Span(0,6) < Span(1,0). -/
theorem C5_span_strict_total_order :
    (∀ a : Span, Span.lt a a = false) ∧
    (∀ a b : Span, Span.lt a b = true → Span.lt b a = false) ∧
    (∀ a b c : Span, Span.lt a b = true → Span.lt b c = true → Span.lt a c = true) ∧
    (∀ a b : Span, Span.lt a b = true ∨ Span.eq a b = true ∨ Span.lt b a = true) ∧
    Span.lt { begin := 0, end_ := 5 } { begin := 0, end_ := 6 } = true ∧
    Span.lt { begin := 0, end_ := 6 } { begin := 1, end_ := 0 } = true := by
  refine ⟨?_, ?_, ?_, ?_, by decide, by decide⟩
  · intro a
    simp only [Bool.eq_false_iff, ne_eq, Span.lt_iff]
    omega
  · intro a b h
    rw [Span.lt_iff] at h
    simp only [Bool.eq_false_iff, ne_eq, Span.lt_iff]
    omega
  · intro a b c h1 h2
    rw [Span.lt_iff] at h1 h2
    rw [Span.lt_iff]
    omega
  · intro a b
    simp only [Span.lt_iff, Span.eq, decide_eq_true_eq, Prod.mk.injEq]
    omega

theorem C5_witness :
    Span.lt { begin := 0, end_ := 5 } { begin := 0, end_ := 6 } = true ∧
    Span.lt { begin := 0, end_ := 6 } { begin := 0, end_ := 5 } = false :=
  ⟨C5_span_strict_total_order.2.2.2.2.1,
   C5_span_strict_total_order.2.1 _ _ C5_span_strict_total_order.2.2.2.2.1⟩

theorem C4_counterexample_span_accepts_reversed :
    Span.init 5 3 = Except.ok { begin := 5, end_ := 3 } ∧ ((3 : Int) < 5) :=
  ⟨rfl, by decide⟩

/-- Claim C4 (amended): Span.__init__ performs no validation at all: for all
integers begin and end, construction succeeds and stores both unchanged, even
when end < begin. -/
theorem C4_amended_span_init_never_fails :
    ∀ b e : Int, Span.init b e = Except.ok { begin := b, end_ := e } :=
  fun _ _ => rfl

/-- Claim C10: for every argument value, constructing a Query fails:
Query.__init__ calls Entry.__init__ with no pack argument although pack is a
required positional parameter, so every construction raises TypeError before
self.query is assigned and no Query instance can be created. -/
theorem C10_query_init_always_fails :
    ∀ q : QueryVal, Query.init q = Except.error (PyError.missingArgument ("pack")) :=
  fun _ => rfl

/-- Claim C1 (code bug located): set_parent behaves exactly as claimed - the
TypeError names the declared ParentType and the actual runtime class, and
success stores exactly the entry's id - but the TypeError raised by set_child
(source lines 329-331) names self.ParentType instead of self.ChildType: with
ParentType Sentence and ChildType Token, set_child on a Sentence entry
reports Sentence as the expected type although the failed check was made
against Token. -/
theorem C1_set_child_error_names_parent_type :
    Link.set_child depLinkDecl bareLink sentenceEntry
      = Except.error (PyError.typeMismatch PyClass.sentence PyClass.sentence) ∧
    depLinkDecl.childType = PyClass.token ∧
    PyClass.sentence ≠ PyClass.token ∧
    Link.set_parent depLinkDecl bareLink sentenceEntry
      = Except.ok { bareLink with parent := some ("s1") } ∧
    Link.set_parent depLinkDecl bareLink tokenA0
      = Except.error (PyError.typeMismatch PyClass.sentence PyClass.token) :=
  ⟨rfl, rfl, by decide, rfl, rfl⟩

/-- Claim C2 (code bug located): Annotation.__eq__ compares exactly
(runtime type, span.begin, span.end) as claimed, but Annotation.__hash__
hashes (runtime type, pack, span.begin, span.end): two Token annotations
with span (0,5) owned by different stores compare equal while their hash
inputs differ in the pack component, so hash is not determined by
(type, begin, end) and equal annotations can hash differently. -/
theorem C2_annot_hash_includes_pack :
    Annot.eq tokenA0 (some tokenA1) = Except.ok true ∧
    Annot.hash_input tokenA0 = Except.ok (PyClass.token, some 0, 0, 5) ∧
    Annot.hash_input tokenA1 = Except.ok (PyClass.token, some 1, 0, 5) ∧
    ((PyClass.token, some 0, 0, 5) : PyClass × Option Nat × Int × Int)
      ≠ (PyClass.token, some 1, 0, 5) :=
  ⟨rfl, rfl, rfl, by decide⟩

/-- Claim C6 (code bug located): SubEntry hashing and index_key are
structural on the (pack_index, entry_id) pair as claimed, but
SubEntry.__eq__ (source line 506) reads other.entry - an attribute no class
in top.py defines; the intended attribute is other.entry_id - so comparing
two SubEntries with identical address pairs raises AttributeError instead of
returning True. -/
theorem add_members_pack_preserved (mt : PyClass) :
    ∀ (ms : List EntryState) (g g2 : EntryState),
      BaseGroup.add_members mt g ms = Except.ok g2 → g2.pack = g.pack := by
  intro ms
  induction ms with
  | nil =>
      intro g g2 h
      unfold BaseGroup.add_members at h
      injection h with h2
      rw [← h2]
  | cons m tl ih =>
      intro g g2 h
      unfold BaseGroup.add_members at h
      split at h
      · split at h
        · have h3 := ih _ _ h
          exact h3
        · exact Except.noConfusion h
      · exact Except.noConfusion h

/-- Claim C3 (amended): the owner is assigned at construction from the
creating store, and every core operation except one preserves it: the
exception is set_fields, whose hasattr gate accepts any existing attribute
name, including the mangled owner slot _Entry__pack, so an explicit
set_fields call on that name reassigns the owner; no other core operation
can touch it. -/
theorem C3_amended_owner_assigned_once :
    (∀ (cls : PyClass) (c : EntryContainer) (e : EntryState),
        Entry.init cls (some (some c)) = Except.ok e → e.pack = some c.cid) ∧
    (∀ (op : CoreOp) (e e2 : EntryState),
        touchesPackSlot op = false → step op e = Except.ok e2 → e2.pack = e.pack) := by
  constructor
  · intro cls c e h
    unfold Entry.init EntryContainer.validate at h
    simp at h
    rw [← h]
  · intro op e e2 hop h
    cases op with
    | setComponent s =>
        simp only [step] at h
        injection h with h2
        rw [← h2]
        rfl
    | setTid t =>
        simp only [step] at h
        injection h with h2
        rw [← h2]
        rfl
    | setSpan b en =>
        simp only [step] at h
        injection h with h2
        rw [← h2]
        rfl
    | linkSetParent d p =>
        simp only [step] at h
        unfold Link.set_parent at h
        split at h
        · split at h
          · injection h with h2
            rw [← h2]
          · exact Except.noConfusion h
        · exact Except.noConfusion h
    | linkSetChild d c =>
        simp only [step] at h
        unfold Link.set_child at h
        split at h
        · split at h
          · injection h with h2
            rw [← h2]
          · exact Except.noConfusion h
        · exact Except.noConfusion h
    | mpSetParent d p =>
        simp only [step] at h
        unfold MultiPackLink.set_parent at h
        split at h
        · split at h
          · injection h with h2
            rw [← h2]
          · exact Except.noConfusion h
        · exact Except.noConfusion h
    | mpSetChild d c =>
        simp only [step] at h
        unfold MultiPackLink.set_child at h
        split at h
        · split at h
          · injection h with h2
            rw [← h2]
          · exact Except.noConfusion h
        · exact Except.noConfusion h
    | groupAddMembers mt ms =>
        simp only [step] at h
        exact add_members_pack_preserved mt ms e e2 h
    | setFields a =>
        cases a with
        | packA p => simp [touchesPackSlot] at hop
        | tidA t =>
            simp only [step] at h
            unfold Entry.set_fields at h
            split at h
            · injection h with h2
              rw [← h2]
              rfl
            · exact Except.noConfusion h
        | componentA s =>
            simp only [step] at h
            unfold Entry.set_fields at h
            split at h
            · injection h with h2
              rw [← h2]
              rfl
            · exact Except.noConfusion h
        | spanA s =>
            simp only [step] at h
            unfold Entry.set_fields at h
            split at h
            · injection h with h2
              rw [← h2]
              rfl
            · exact Except.noConfusion h
        | parentA p =>
            simp only [step] at h
            unfold Entry.set_fields at h
            split at h
            · injection h with h2
              rw [← h2]
              rfl
            · exact Except.noConfusion h
        | childA p =>
            simp only [step] at h
            unfold Entry.set_fields at h
            split at h
            · injection h with h2
              rw [← h2]
              rfl
            · exact Except.noConfusion h
        | membersA ms =>
            simp only [step] at h
            unfold Entry.set_fields at h
            split at h
            · injection h with h2
              rw [← h2]
              rfl
            · exact Except.noConfusion h

theorem C3_counterexample_set_fields_reassigns_owner :
    step (CoreOp.setFields (AttrAssign.packA (some 1))) tokenA0
      = Except.ok { tokenA0 with pack := some 1, modifiedFields := ["_Entry__pack"] } ∧
    tokenA0.pack = some 0 ∧ (some 1 : Option Nat) ≠ some 0 :=
  ⟨rfl, rfl, by decide⟩

theorem C3_witness :
    touchesPackSlot (CoreOp.setComponent ("c1")) = false ∧
    (Entry.set_component tokenA0 ("c1")).pack = tokenA0.pack ∧
    (Entry.init PyClass.token (some (some annotPack0))).isOk = true :=
  ⟨rfl,
   C3_amended_owner_assigned_once.2 (CoreOp.setComponent ("c1")) tokenA0
     (Entry.set_component tokenA0 ("c1")) rfl rfl,
   rfl⟩

theorem C6_subentry_eq_raises_attribute_error :
    SubEntry.eq subEntry42 (some subEntry42) = Except.error (PyError.attributeError ("entry")) ∧
    SubEntry.index_key subEntry42 = Except.ok (1, "42") ∧
    SubEntry.hash_input subEntry42 = Except.ok (PyClass.subEntry, 1, "42") :=
  ⟨rfl, rfl, rfl⟩

theorem C7_counterexample_out_of_bounds_resolves :
    MultiPackLink.get_parent [multiPack] mpLink5
      = Except.ok { cls := PyClass.subEntry, pack := some 0,
                    packIndex := some 5, entryId := some ("42") } ∧
    multiPack.subStores.length = 2 ∧ ¬((5 : Int) < 2) :=
  ⟨rfl, rfl, by decide⟩

/-- Claim C7 (amended): MultiPackLink.get_parent and get_child perform no
lookup at all: whenever the endpoint is set they return a freshly constructed
SubEntry handle carrying the stored (pack_index, entry_id) pair, regardless
of the container's sub-store list or id index, so neither an
IndexOutOfRangeError nor an UnknownIdError can arise at resolution time; they
fail only with IncompleteEntryError when the endpoint is unset. -/
theorem C7_amended_get_returns_unchecked_handle :
    ∀ (c : EntryContainer) (st : EntryState) (i : Int) (t : String),
      MultiPackLink.get_parent [c] { st with pack := some c.cid, mpParent := some (i, t) }
        = Except.ok { cls := PyClass.subEntry, pack := some c.cid,
                      packIndex := some i, entryId := some t } ∧
      MultiPackLink.get_child [c] { st with pack := some c.cid, mpChild := some (i, t) }
        = Except.ok { cls := PyClass.subEntry, pack := some c.cid,
                      packIndex := some i, entryId := some t } ∧
      MultiPackLink.get_parent [c] { st with mpParent := none }
        = Except.error PyError.incompleteEntry ∧
      MultiPackLink.get_child [c] { st with mpChild := none }
        = Except.error PyError.incompleteEntry := by
  intro c st i t
  refine ⟨?_, ?_, rfl, rfl⟩ <;>
    simp [MultiPackLink.get_parent, MultiPackLink.get_child, SubEntry.init, Entry.init,
      EntryContainer.validate, packOf, findPack, List.find?]

/-- Claim C8 (amended): link equality is computed from the resolved
endpoints, never from the links' own assigned ids: for all links a and b
whose four endpoints resolve and whose endpoint comparisons return p and c,
a == b returns the conjunction of runtime-type equality, p and c, so a == b
is True iff the types coincide and both endpoint comparisons succeed,
whatever ids the links carry and in whatever order they were created. The
hash tuple is likewise built from the resolved endpoint entries; however,
because Annotation.__hash__ includes the owning pack while Annotation.__eq__
does not, two equal links whose endpoints are equal annotations living in
different packs can have different hash inputs (see the counterexample), so
hash is consistent with this equality only up to the endpoints' own eq-hash
consistency. -/
theorem C8_amended_link_eq_is_resolved_endpoints :
    ∀ (w : World) (fuel : Nat) (a b ap ac bp bc : EntryState) (p c : Bool),
      dispatchGetParent w a = Except.ok ap →
      dispatchGetChild w a = Except.ok ac →
      dispatchGetParent w b = Except.ok bp →
      dispatchGetChild w b = Except.ok bc →
      pyEq w fuel ap (some bp) = Except.ok p →
      pyEq w fuel ac (some bc) = Except.ok c →
      BaseLink.eq w fuel a (some b) = Except.ok (decide (a.cls = b.cls) && p && c) ∧
      (BaseLink.eq w fuel a (some b) = Except.ok true ↔ (a.cls = b.cls ∧ p = true ∧ c = true)) := by
  intro w fuel a b ap ac bp bc p c h1 h2 h3 h4 h5 h6
  have hmain : BaseLink.eq w fuel a (some b) = Except.ok (decide (a.cls = b.cls) && p && c) := by
    unfold BaseLink.eq BaseLink.eqWith
    simp only [h1, h2, h3, h4]
    by_cases hcls : a.cls = b.cls
    · cases p with
      | true => simp [hcls, h5, h6]
      | false => simp [hcls, h5]
    · simp [hcls]
  refine ⟨hmain, ?_⟩
  rw [hmain]
  constructor
  · intro h
    injection h with h7
    simp only [Bool.and_eq_true, decide_eq_true_eq] at h7
    exact ⟨h7.1.1, h7.1.2, h7.2⟩
  · intro h
    rcases h with ⟨hc, hp, hcc⟩
    rw [hc, hp, hcc]
    simp

theorem C8_counterexample_equal_links_hash_differently :
    BaseLink.eq c8world 1 linkPack0 (some linkPack1) = Except.ok true ∧
    BaseLink.hash_input c8world 1 linkPack0
      = Except.ok (HashKey.linkK PyClass.link
          (HashKey.annotK PyClass.token (some 0) 0 5)
          (HashKey.annotK PyClass.token (some 0) 10 12)) ∧
    BaseLink.hash_input c8world 1 linkPack1
      = Except.ok (HashKey.linkK PyClass.link
          (HashKey.annotK PyClass.token (some 1) 0 5)
          (HashKey.annotK PyClass.token (some 1) 10 12)) ∧
    (HashKey.linkK PyClass.link
        (HashKey.annotK PyClass.token (some 0) 0 5)
        (HashKey.annotK PyClass.token (some 0) 10 12))
      ≠ (HashKey.linkK PyClass.link
          (HashKey.annotK PyClass.token (some 1) 0 5)
          (HashKey.annotK PyClass.token (some 1) 10 12)) :=
  ⟨rfl, rfl, rfl, by decide⟩

theorem C8_witness :
    BaseLink.eq c8world 1 linkPack0 (some linkPack1) = Except.ok true := by
  have h := C8_amended_link_eq_is_resolved_endpoints c8world 1 linkPack0 linkPack1
    tokenP0 tokenC0 tokenP1 tokenC1 true true rfl rfl rfl rfl rfl rfl
  exact h.2.mpr ⟨rfl, rfl, rfl⟩

end Forte
